import Mathlib

/-!
Verification of `bdgenomics/workflows/tools/spark_tools.py`.

The module assembles command lines and docker options for Spark-based
genomics tools and hands them to an external container-run primitive
(`dockerCall`) or a local process (`check_call`).  We embed it shallowly:

* `MasterAddress` is the string subclass carrying a `nominal` value (the
  Python `str` content, `self`) and an `actual` field.
* `_make_parameters` is the pure assembler; Python's `require` failure is
  an `Except.error`.
* Each `call_*` function is embedded as a pure function from its inputs
  plus the outcome the external run primitive would produce
  (`dockerResult : Except String Unit`, error = the primitive raises) to a
  `CallResult` recording which external runs were started, which log
  messages were emitted, and the call's own outcome (error = an exception
  propagates to the caller).
* Python truthiness on optional strings (`if x:`) is `truthy`.
-/

namespace SparkTools

def SPARK_MASTER_PORT : String := "7077"

def HDFS_MASTER_PORT : String := "8020"

/-- Python truthiness of an optional string value: `if x:` holds iff `x`
is neither `None` nor the empty string. -/
def truthy : Option String → Bool
  | none => false
  | some s => s != ""

/-- `class MasterAddress(str)`: `nominal` is the string content (Python
`self`), `actual` the extra attribute. -/
structure MasterAddress where
  nominal : String
  actual : String
deriving DecidableEq, Repr

/-- `MasterAddress.__init__`: stores the string and sets `actual` to the
value itself. -/
def MasterAddress.ofString (s : String) : MasterAddress :=
  ⟨s, s⟩

/-- `MasterAddress.docker_parameters`: append `--add-host=spark-master:<actual>`
(creating a fresh list when the argument is `None`) when the nominal and the
actual address differ; otherwise return the argument as passed. -/
def MasterAddress.docker_parameters (ma : MasterAddress) (dp : Option (List String)) :
    Option (List String) :=
  if ma.nominal ≠ ma.actual then
    match dp with
    | none => some ["--add-host=spark-master:" ++ ma.actual]
    | some l => some (l ++ ["--add-host=spark-master:" ++ ma.actual])
  else dp

/-- The memory/override block of `_make_parameters`: driver and executor
memory entries when `memory` is given, otherwise the caller's overrides.
(The `none`/`none` case is unreachable behind the `require` check and
defaults to `[]`.) -/
def _memory_parameters (memory : Option Nat) (override_parameters : Option (List String)) :
    List String :=
  match memory with
  | some m =>
      ["--conf", "spark.driver.memory=" ++ toString m ++ "g",
       "--conf", "spark.executor.memory=" ++ toString m ++ "g"]
  | none => override_parameters.getD []

/-- The `if master_ip:` block of `_make_parameters`: Spark master and HDFS
default-filesystem entries for a truthy (non-empty) leader address. -/
def _master_parameters (master_ip : String) : List String :=
  if master_ip ≠ "" then
    ["--master", "spark://" ++ master_ip ++ ":" ++ SPARK_MASTER_PORT,
     "--conf", "spark.hadoop.fs.default.name=hdfs://" ++ master_ip ++ ":" ++ HDFS_MASTER_PORT]
  else []

/-- `_make_parameters`: fails via `require` unless exactly one of `memory`
and `override_parameters` is given; otherwise assembles memory/override
entries, then leader entries, then tool defaults, then `--`, then the tool
arguments. -/
def _make_parameters (master_ip : String) (default_parameters : List String)
    (memory : Option Nat) (arguments : List String)
    (override_parameters : Option (List String)) : Except String (List String) :=
  if (override_parameters.isSome || memory.isSome) &&
     (override_parameters.isNone || memory.isNone) then
    Except.ok (_memory_parameters memory override_parameters ++
      _master_parameters master_ip ++ default_parameters ++ ["--"] ++ arguments)
  else
    Except.error "Either the memory setting must be defined or you must provide Spark configuration parameters."

/-- An element of a `dockerParameters` list.  Python lists are untyped, and
`call_conductor`/`call_adam` place the whole list returned by
`MasterAddress.docker_parameters` inside the outer list as one element, so
an element is either a string or such a nested value. -/
inductive DockerArg where
  | str : String → DockerArg
  | nested : Option (List String) → DockerArg
deriving DecidableEq, Repr

/-- One invocation of the external `dockerCall` primitive. -/
structure RunCall where
  tool : String
  dockerParameters : List DockerArg
  parameters : List String
deriving DecidableEq, Repr

/-- An external run started by a call function: a container run or a local
process (`check_call`). -/
inductive Run where
  | docker : RunCall → Run
  | localProcess : List String → Run
deriving DecidableEq, Repr

/-- Observable behaviour of one `call_*` invocation: external runs started,
log messages emitted, and the outcome seen by the caller (`error` = an
exception propagates). -/
structure CallResult where
  runs : List Run
  logs : List String
  outcome : Except String Unit

/-- `call_conductor`. -/
def call_conductor (dockerResult : Except String Unit) (master_ip : MasterAddress)
    (src dst : String) (memory : Option Nat)
    (override_parameters : Option (List String)) : CallResult :=
  let arguments := ["-C", src, dst]
  let docker_parameters : List DockerArg :=
    [DockerArg.str "--log-driver", DockerArg.str "none",
     DockerArg.nested (master_ip.docker_parameters (some ["--net=host"]))]
  match _make_parameters master_ip.nominal [] memory arguments override_parameters with
  | Except.error e => ⟨[], [], Except.error e⟩
  | Except.ok ps =>
      ⟨[Run.docker ⟨"quay.io/ucsc_cgl/conductor", docker_parameters, ps⟩], [], dockerResult⟩

/-- The ADAM performance-tuning defaults appended to the master entries in
`call_adam`. -/
def adam_tuning_params : List String :=
  ["--conf", "spark.driver.maxResultSize=0",
   "--conf", "spark.storage.memoryFraction=0.3",
   "--conf", "spark.storage.unrollFraction=0.1",
   "--conf", "spark.network.timeout=300s"]

/-- `call_adam`.  `os.path.join(native_adam_path, "bin/adam-submit")` is
modelled as concatenation with a `/` separator. -/
def call_adam (dockerResult : Except String Unit) (master_ip : MasterAddress)
    (arguments : List String) (memory : Option Nat)
    (override_parameters : Option (List String)) (run_local : Bool)
    (native_adam_path : Option String) : CallResult :=
  let master :=
    if run_local then ["--master", "local[*]"]
    else ["--master", "spark://" ++ master_ip.nominal ++ ":" ++ SPARK_MASTER_PORT,
          "--conf", "spark.hadoop.fs.default.name=hdfs://" ++ master_ip.nominal ++ ":" ++ HDFS_MASTER_PORT]
  let default_params := master ++ adam_tuning_params
  match native_adam_path with
  | none =>
      let docker_parameters : List DockerArg :=
        [DockerArg.str "--log-driver", DockerArg.str "none",
         DockerArg.nested (master_ip.docker_parameters (some ["--net=host"]))]
      match _make_parameters master_ip.nominal default_params memory arguments override_parameters with
      | Except.error e => ⟨[], [], Except.error e⟩
      | Except.ok ps =>
          ⟨[Run.docker ⟨"quay.io/ucsc_cgl/adam:962-ehf--6e7085f8cac4b9a927dc9fb06b48007957256b80",
                        docker_parameters, ps⟩], [], dockerResult⟩
  | some path =>
      ⟨[Run.localProcess ((path ++ "/bin/adam-submit") :: (default_params ++ arguments))],
       [], dockerResult⟩

/-- The default-parameter block shared verbatim by `call_deca`,
`call_mango_browser` and `call_mango_notebook` (each lists it inline). -/
def spark_s3_default_params (run_local : Bool) : List String :=
  (if run_local then ["--master", "local[*]"] else []) ++
  ["--conf", "spark.driver.maxResultSize=0",
   "--conf", "spark.hadoop.hadoopbam.bam.enable-bai-splitter=true",
   "--packages", "com.amazonaws:aws-java-sdk-pom:1.10.34,org.apache.hadoop:hadoop-aws:2.7.4",
   "--conf", "spark.hadoop.fs.s3a.impl=org.apache.hadoop.fs.s3a.S3AFileSystem"]

/-- The `-e` environment-variable docker options added when credentials are
supplied. -/
def aws_env_docker_params (ak sk : String) : List String :=
  ["-e", "AWS_ACCESS_KEY_ID=" ++ ak, "-e", "AWS_SECRET_ACCESS_KEY=" ++ sk]

/-- The per-scheme (`s3`, `s3n`) credential configuration entries added in
the credentials block (a `for` loop in the source). -/
def aws_scheme_conf_params (ak sk : String) : List String :=
  ["s3", "s3n"].foldl (fun ps scheme => ps ++
    ["--conf", "spark.hadoop.fs." ++ scheme ++ ".awsAccessKeyId=" ++ ak,
     "--conf", "spark.hadoop.fs." ++ scheme ++ ".awsSecretAccessKey=" ++ sk]) []

/-- The final four credential configuration entries (s3a access/secret key
and executor environment) added in the credentials block. -/
def aws_key_conf_params (ak sk : String) : List String :=
  ["--conf", "spark.hadoop.fs.s3a.access.key=" ++ ak,
   "--conf", "spark.hadoop.fs.s3a.secret.key=" ++ sk,
   "--conf", "spark.executorEnv.AWS_ACCESS_KEY_ID=" ++ ak,
   "--conf", "spark.executorEnv.AWS_SECRET_ACCESS_KEY=" ++ sk]

/-- `call_deca`. -/
def call_deca (dockerResult : Except String Unit) (master_ip : MasterAddress)
    (arguments : List String) (memory : Option Nat)
    (override_parameters : Option (List String)) (work_dir : Option String)
    (run_local : Bool) (aws_access_key_id aws_secret_access_key : Option String) :
    CallResult :=
  let default_params := spark_s3_default_params run_local
  let docker_parameters : List String := ["--log-driver", "none", "--net=host"]
  if truthy aws_access_key_id && !(truthy aws_secret_access_key) then
    ⟨[], [], Except.error "If AWS access key is passed, secret key must be defined"⟩
  else
    let ak := aws_access_key_id.getD ""
    let sk := aws_secret_access_key.getD ""
    let docker_parameters :=
      if truthy aws_access_key_id then docker_parameters ++ aws_env_docker_params ak sk
      else docker_parameters
    let default_params :=
      if truthy aws_access_key_id then
        default_params ++
          ["--packages", "com.amazonaws:aws-java-sdk-pom:1.10.34,org.apache.hadoop:hadoop-aws:2.7.4",
           "--conf", "spark.hadoop.fs.s3a.impl=org.apache.hadoop.fs.s3a.S3AFileSystem"] ++
          aws_scheme_conf_params ak sk ++ aws_key_conf_params ak sk
      else default_params
    let docker_parameters :=
      if truthy work_dir then docker_parameters ++ ["-v", work_dir.getD "" ++ ":/data"]
      else docker_parameters
    match _make_parameters master_ip.nominal default_params memory arguments override_parameters with
    | Except.error e => ⟨[], [], Except.error e⟩
    | Except.ok ps =>
        ⟨[Run.docker ⟨"quay.io/ucsc_cgl/deca:0.1.0--7d13833a1220001481c4de0489e893c93ee3310f",
                      docker_parameters.map DockerArg.str, ps⟩], [], dockerResult⟩

/-- `call_mango_browser`.  The `try/except` around `dockerCall` swallows a
failure of the run and only logs `"docker exited"`. -/
def call_mango_browser (dockerResult : Except String Unit) (master_ip : MasterAddress)
    (arguments : List String) (host : String) (port : Nat) (memory : Option Nat)
    (override_parameters : Option (List String)) (work_dir : Option String)
    (run_local run_mac : Bool)
    (aws_access_key_id aws_secret_access_key : Option String) : CallResult :=
  let _ := host
  let default_params := spark_s3_default_params run_local
  let docker_parameters : List String :=
    if !run_mac then ["--net=host"]
    else ["-p", toString port ++ ":8080"]
  if truthy aws_access_key_id && !(truthy aws_secret_access_key) then
    ⟨[], [], Except.error "If AWS access key is passed, secret key must be defined"⟩
  else
    let ak := aws_access_key_id.getD ""
    let sk := aws_secret_access_key.getD ""
    let docker_parameters :=
      if truthy aws_access_key_id then docker_parameters ++ aws_env_docker_params ak sk
      else docker_parameters
    let default_params :=
      if truthy aws_access_key_id then
        default_params ++
          ["--conf", "spark.hadoop.fs.s3a.impl=org.apache.hadoop.fs.s3a.S3AFileSystem"] ++
          aws_scheme_conf_params ak sk ++ aws_key_conf_params ak sk
      else default_params
    let docker_parameters :=
      if truthy work_dir then docker_parameters ++ ["-v", work_dir.getD "" ++ ":/data"]
      else docker_parameters
    match _make_parameters master_ip.nominal default_params memory arguments override_parameters with
    | Except.error e => ⟨[], [], Except.error e⟩
    | Except.ok ps =>
        let startLogs := ["Starting the merge sort", "bdgenomics.workflows.tools.spark_tools"]
        let rc : RunCall :=
          ⟨"quay.io/ucsc_cgl/mango:latest", docker_parameters.map DockerArg.str, ps⟩
        match dockerResult with
        | Except.ok _ => ⟨[Run.docker rc], startLogs, Except.ok ()⟩
        | Except.error _ => ⟨[Run.docker rc], startLogs ++ ["docker exited"], Except.ok ()⟩

/-- `call_mango_notebook`. -/
def call_mango_notebook (dockerResult : Except String Unit) (master_ip : MasterAddress)
    (arguments : List String) (host : String) (port : Nat) (memory : Option Nat)
    (override_parameters : Option (List String)) (work_dir : Option String)
    (run_local run_mac : Bool)
    (aws_access_key_id aws_secret_access_key : Option String) : CallResult :=
  let _ := host
  let default_params := spark_s3_default_params run_local
  let docker_parameters : List String :=
    if !run_mac then ["--net=host"]
    else ["-p", toString port ++ ":8888"]
  let docker_parameters := docker_parameters ++ ["--entrypoint=/home/mango/bin/mango-notebook"]
  if truthy aws_access_key_id && !(truthy aws_secret_access_key) then
    ⟨[], [], Except.error "If AWS access key is passed, secret key must be defined"⟩
  else
    let ak := aws_access_key_id.getD ""
    let sk := aws_secret_access_key.getD ""
    let docker_parameters :=
      if truthy aws_access_key_id then docker_parameters ++ aws_env_docker_params ak sk
      else docker_parameters
    let default_params :=
      if truthy aws_access_key_id then
        default_params ++
          ["--conf", "spark.hadoop.fs.s3a.impl=org.apache.hadoop.fs.s3a.S3AFileSystem"] ++
          aws_scheme_conf_params ak sk ++ aws_key_conf_params ak sk
      else default_params
    let docker_parameters :=
      if truthy work_dir then docker_parameters ++ ["-v", work_dir.getD "" ++ ":/data"]
      else docker_parameters
    match _make_parameters master_ip.nominal default_params memory arguments override_parameters with
    | Except.error e => ⟨[], [], Except.error e⟩
    | Except.ok ps =>
        ⟨[Run.docker ⟨"quay.io/ucsc_cgl/mango:latest", docker_parameters.map DockerArg.str, ps⟩],
         [], dockerResult⟩

end SparkTools

namespace SparkTools

/-! ## Helper lemmas -/

theorem sep_ne_append3 (pre mid post : String) (hpre : 2 < pre.length) :
    ("--" : String) ≠ pre ++ mid ++ post := by
  have h2 : ("--" : String).length = 2 := rfl
  intro h
  have hl := congrArg String.length h
  rw [String.length_append, String.length_append, h2] at hl
  omega

theorem sep_not_mem_memory_parameters (m : Nat) (o : Option (List String)) :
    "--" ∉ _memory_parameters (some m) o := by
  intro h
  have h20 : ("spark.driver.memory=" : String).length = 20 := rfl
  have h22 : ("spark.executor.memory=" : String).length = 22 := rfl
  simp only [_memory_parameters, List.mem_cons, List.not_mem_nil, or_false] at h
  rcases h with h | h | h | h
  · exact absurd h (by decide)
  · exact absurd h (sep_ne_append3 _ _ _ (by omega))
  · exact absurd h (by decide)
  · exact absurd h (sep_ne_append3 _ _ _ (by omega))

theorem sep_not_mem_master_parameters (ip : String) :
    "--" ∉ _master_parameters ip := by
  intro h
  have h8 : ("spark://" : String).length = 8 := rfl
  have h29 : ("spark.hadoop.fs.default.name=hdfs://" : String).length = 36 := rfl
  unfold _master_parameters at h
  split at h
  · simp only [List.mem_cons, List.not_mem_nil, or_false] at h
    rcases h with h | h | h | h
    · exact absurd h (by decide)
    · have : ("--" : String) ≠ "spark://" ++ ip ++ ":" ++ SPARK_MASTER_PORT := by
        have := sep_ne_append3 ("spark://" ++ ip) ":" SPARK_MASTER_PORT
          (by rw [String.length_append]; omega)
        simpa using this
      exact absurd h this
    · exact absurd h (by decide)
    · have : ("--" : String) ≠ "spark.hadoop.fs.default.name=hdfs://" ++ ip ++ ":" ++ HDFS_MASTER_PORT := by
        have := sep_ne_append3 ("spark.hadoop.fs.default.name=hdfs://" ++ ip) ":" HDFS_MASTER_PORT
          (by rw [String.length_append]; omega)
        simpa using this
      exact absurd h this
  · exact absurd h (List.not_mem_nil _)

/-! ## Claim theorems -/

/-- C1: for every call to `_make_parameters`, the call fails with the
precondition error exactly when `memory` and `override_parameters` are both
absent or both present, succeeds exactly when one of the two is present, and
in the failing case `call_conductor` starts no external run (the failure
happens before the container-run primitive is invoked). -/
theorem make_parameters_exactly_one (ip : String) (d a : List String)
    (m : Option Nat) (o : Option (List String)) :
    ((∃ e, _make_parameters ip d m a o = Except.error e) ↔
      ¬ ((m ≠ none ∧ o = none) ∨ (m = none ∧ o ≠ none)))
    ∧ ((∃ l, _make_parameters ip d m a o = Except.ok l) ↔
      ((m ≠ none ∧ o = none) ∨ (m = none ∧ o ≠ none)))
    ∧ ∀ (r : Except String Unit) (ma : MasterAddress) (src dst : String),
      ((call_conductor r ma src dst m o).runs = [] ↔
        ¬ ((m ≠ none ∧ o = none) ∨ (m = none ∧ o ≠ none))) := by
  cases m <;> cases o <;>
    simp [_make_parameters, call_conductor]

/-- C2 counterexample: with leader "node1" and memory 8 the assembled list
starts with the driver/executor memory entries, not with the
connection-target entry. -/
theorem make_parameters_node1_mem8_cex :
    _make_parameters "node1" [] (some 8) [] none =
      Except.ok ["--conf", "spark.driver.memory=8g", "--conf", "spark.executor.memory=8g",
        "--master", "spark://node1:7077",
        "--conf", "spark.hadoop.fs.default.name=hdfs://node1:8020", "--"]
    ∧ List.take 2 ["--conf", "spark.driver.memory=8g", "--conf", "spark.executor.memory=8g",
        "--master", "spark://node1:7077",
        "--conf", "spark.hadoop.fs.default.name=hdfs://node1:8020", "--"] ≠
        ["--master", "spark://node1:7077"] :=
  ⟨rfl, by decide⟩

/-- C2 amended: with leader "node1" and memory 8 the assembled list consists
of the driver/executor memory entries first, then the connection-target
entry on port 7077 and the filesystem-endpoint entry on port 8020 addressed
at node1, then the tool defaults, then the separator token, then the tool
arguments, in that exact order. -/
theorem make_parameters_node1_mem8_order (defaults args : List String) :
    _make_parameters "node1" defaults (some 8) args none =
      Except.ok (["--conf", "spark.driver.memory=8g", "--conf", "spark.executor.memory=8g",
        "--master", "spark://node1:7077",
        "--conf", "spark.hadoop.fs.default.name=hdfs://node1:8020"] ++
        defaults ++ ["--"] ++ args) := rfl

/-- C5: with memory 4, no overrides and no leader address, the assembled
list is the driver-memory and executor-memory entries set to 4g followed by
the defaults, the separator and the arguments, and (when the caller-supplied
lists do not themselves contain it) no `--master` entry occurs. -/
theorem make_parameters_mem4_no_master (defaults args : List String)
    (hd : "--master" ∉ defaults) (ha : "--master" ∉ args) :
    _make_parameters "" defaults (some 4) args none =
      Except.ok (["--conf", "spark.driver.memory=4g", "--conf", "spark.executor.memory=4g"] ++
        defaults ++ ["--"] ++ args)
    ∧ "--master" ∉ (["--conf", "spark.driver.memory=4g", "--conf", "spark.executor.memory=4g"] ++
        defaults ++ ["--"] ++ args) := by
  refine ⟨rfl, ?_⟩
  intro h
  simp [hd, ha] at h

/-- C5 witness at defaults = [], args = []. -/
theorem make_parameters_mem4_no_master_witness :
    _make_parameters "" [] (some 4) [] none =
      Except.ok (["--conf", "spark.driver.memory=4g", "--conf", "spark.executor.memory=4g"] ++
        [] ++ ["--"] ++ [])
    ∧ "--master" ∉ (["--conf", "spark.driver.memory=4g", "--conf", "spark.executor.memory=4g"] ++
        [] ++ ["--"] ++ ([] : List String)) :=
  make_parameters_mem4_no_master [] [] (by decide) (by decide)

/-- C4 counterexample: on a freshly constructed address (nominal = actual)
with no option list supplied, `docker_parameters` returns no list at all
(`None`), not a newly created one. -/
theorem docker_parameters_none_cex :
    (MasterAddress.ofString "foo").docker_parameters none = none ∧
    (MasterAddress.ofString "foo").docker_parameters none ≠ some [] := by
  decide

/-- C4 amended: `docker_parameters` returns its argument exactly as passed
(in particular `None` stays `None`) when nominal and actual agree; when they
differ it appends exactly one host-alias option (starting a fresh list when
none was supplied) whose value is the actual address. -/
theorem docker_parameters_spec (ma : MasterAddress) (dp : Option (List String)) :
    (ma.nominal = ma.actual → ma.docker_parameters dp = dp)
    ∧ (ma.nominal ≠ ma.actual →
        ma.docker_parameters dp =
          some (dp.getD [] ++ ["--add-host=spark-master:" ++ ma.actual])) := by
  constructor
  · intro h
    simp [MasterAddress.docker_parameters, h]
  · intro h
    cases dp <;> simp [MasterAddress.docker_parameters, h]

/-- C4 witness at a concrete address pair with differing nominal/actual. -/
theorem docker_parameters_spec_witness :
    (MasterAddress.mk "a" "b").docker_parameters (some ["x"]) =
      some (["x"] ++ ["--add-host=spark-master:" ++ "b"]) :=
  (docker_parameters_spec ⟨"a", "b"⟩ (some ["x"])).2 (by decide)

/-- C10: every freshly constructed `MasterAddress` (any string, including
"auto") has `actual` equal to its nominal string value, and consequently
`docker_parameters` on it returns its argument unchanged, adding no
host-alias option. -/
theorem master_address_fresh_actual (s : String) :
    (MasterAddress.ofString s).actual = (MasterAddress.ofString s).nominal
    ∧ ∀ dp : Option (List String), (MasterAddress.ofString s).docker_parameters dp = dp := by
  refine ⟨rfl, fun dp => ?_⟩
  simp [MasterAddress.docker_parameters, MasterAddress.ofString]

end SparkTools

namespace SparkTools

/-- C3 counterexample: when a tool argument is itself the separator token,
the assembled list contains the separator twice. -/
theorem separator_twice_cex :
    _make_parameters "" [] (some 1) ["--"] none =
      Except.ok ["--conf", "spark.driver.memory=1g", "--conf", "spark.executor.memory=1g",
        "--", "--"]
    ∧ List.count "--" ["--conf", "spark.driver.memory=1g", "--conf", "spark.executor.memory=1g",
        "--", "--"] = 2 :=
  ⟨rfl, by decide⟩

/-- C3 amended: every successfully assembled list has the form
p ++ separator :: arguments with the separator absent from p, provided the
caller-supplied defaults, overrides and tool arguments do not themselves
contain the separator token; in that case the token occurs exactly once and
all tool arguments follow it in their original order. -/
theorem make_parameters_separator (ip : String) (defaults : List String)
    (memory : Option Nat) (args : List String) (ovr : Option (List String))
    (l : List String)
    (hok : _make_parameters ip defaults memory args ovr = Except.ok l)
    (hd : "--" ∉ defaults) (ha : "--" ∉ args)
    (ho : ∀ os, ovr = some os → "--" ∉ os) :
    List.count "--" l = 1 ∧ ∃ p, l = p ++ "--" :: args ∧ "--" ∉ p := by
  have hmem : "--" ∉ _memory_parameters memory ovr := by
    cases memory with
    | some m => exact sep_not_mem_memory_parameters m ovr
    | none =>
        cases ovr with
        | some os => simpa [_memory_parameters] using ho os rfl
        | none => simp [_memory_parameters]
  have hmas : "--" ∉ _master_parameters ip := sep_not_mem_master_parameters ip
  unfold _make_parameters at hok
  split at hok
  · have hnp : "--" ∉ _memory_parameters memory ovr ++ _master_parameters ip ++ defaults := by
      simp only [List.mem_append]
      rintro ((h | h) | h)
      · exact hmem h
      · exact hmas h
      · exact hd h
    have hl : l = (_memory_parameters memory ovr ++ _master_parameters ip ++ defaults) ++
        "--" :: args := by
      injection hok with h
      rw [← h]
      simp [List.append_assoc]
    refine ⟨?_, _, hl, hnp⟩
    rw [hl, List.count_append, List.count_eq_zero.mpr hnp]
    simp [List.count_cons, List.count_eq_zero.mpr ha]
  · exact Except.noConfusion hok

/-- C3 witness at leader "node1", defaults ["-d"], memory 2, arguments
["a", "b"]. -/
theorem make_parameters_separator_witness :
    List.count "--" ["--conf", "spark.driver.memory=2g", "--conf", "spark.executor.memory=2g",
      "--master", "spark://node1:7077",
      "--conf", "spark.hadoop.fs.default.name=hdfs://node1:8020", "-d", "--", "a", "b"] = 1
    ∧ ∃ p, ["--conf", "spark.driver.memory=2g", "--conf", "spark.executor.memory=2g",
      "--master", "spark://node1:7077",
      "--conf", "spark.hadoop.fs.default.name=hdfs://node1:8020", "-d", "--", "a", "b"] =
        p ++ "--" :: ["a", "b"] ∧ "--" ∉ p :=
  make_parameters_separator "node1" ["-d"] (some 2) ["a", "b"] none
    ["--conf", "spark.driver.memory=2g", "--conf", "spark.executor.memory=2g",
     "--master", "spark://node1:7077",
     "--conf", "spark.hadoop.fs.default.name=hdfs://node1:8020", "-d", "--", "a", "b"]
    rfl (by decide) (by decide) (fun os h => nomatch h)

/-- C7: when the container-run primitive fails, `call_mango_browser` swallows
the failure (the run was started, "docker exited" is logged, and the call
returns normally), while `call_mango_notebook`, `call_adam` (container and
native path), `call_deca` and `call_conductor` propagate the failure to the
caller. -/
theorem run_failure_propagation (e : String) (ma : MasterAddress)
    (args : List String) (m : Nat) (src dst : String) :
    (call_mango_browser (Except.error e) ma args "127.0.0.1" 8080 (some m) none none
      false false none none).outcome = Except.ok ()
    ∧ (call_mango_browser (Except.error e) ma args "127.0.0.1" 8080 (some m) none none
      false false none none).runs ≠ []
    ∧ "docker exited" ∈ (call_mango_browser (Except.error e) ma args "127.0.0.1" 8080 (some m)
      none none false false none none).logs
    ∧ (call_mango_notebook (Except.error e) ma args "127.0.0.1" 8888 (some m) none none
      false false none none).outcome = Except.error e
    ∧ (call_adam (Except.error e) ma args (some m) none false none).outcome = Except.error e
    ∧ (call_adam (Except.error e) ma args (some m) none false (some "/opt/adam")).outcome =
      Except.error e
    ∧ (call_deca (Except.error e) ma args (some m) none none false none none).outcome =
      Except.error e
    ∧ (call_conductor (Except.error e) ma src dst (some m) none).outcome = Except.error e := by
  refine ⟨?_, ?_, ?_, ?_, ?_, ?_, ?_, ?_⟩ <;>
    simp [call_mango_browser, call_mango_notebook, call_adam, call_deca, call_conductor,
      _make_parameters, truthy]

/-- C8: in `call_conductor` and `call_adam`'s container path, the docker
option list is exactly `--log-driver`, `none`, and one nested element that
is the entire value returned by `docker_parameters(["--net=host"])`; the
string `--net=host` is never a top-level element of that list. -/
theorem nested_net_host_option (ma : MasterAddress) (src dst : String)
    (args : List String) (m : Nat) (r : Except String Unit) (rl : Bool) :
    ((∃ ps, (call_conductor r ma src dst (some m) none).runs =
      [Run.docker ⟨"quay.io/ucsc_cgl/conductor",
        [DockerArg.str "--log-driver", DockerArg.str "none",
         DockerArg.nested (ma.docker_parameters (some ["--net=host"]))], ps⟩])
    ∧ (∃ ps, (call_adam r ma args (some m) none rl none).runs =
      [Run.docker ⟨"quay.io/ucsc_cgl/adam:962-ehf--6e7085f8cac4b9a927dc9fb06b48007957256b80",
        [DockerArg.str "--log-driver", DockerArg.str "none",
         DockerArg.nested (ma.docker_parameters (some ["--net=host"]))], ps⟩]))
    ∧ DockerArg.str "--net=host" ∉
        [DockerArg.str "--log-driver", DockerArg.str "none",
         DockerArg.nested (ma.docker_parameters (some ["--net=host"]))] := by
  refine ⟨⟨⟨_, rfl⟩, ⟨_, rfl⟩⟩, ?_⟩
  simp

/-- C9: `call_adam` invoked with run_local = true and a non-empty master_ip
(valid memory) passes a parameter list containing both the
`--master local[*]` pair and a second `--master` entry targeting
`spark://<master_ip>:7077`: the master_ip is not disregarded in local mode. -/
theorem adam_local_keeps_master (ma : MasterAddress) (args : List String)
    (m : Nat) (r : Except String Unit) (h : ma.nominal ≠ "") :
    ∃ rc, (call_adam r ma args (some m) none true none).runs = [Run.docker rc]
      ∧ (∃ u v, rc.parameters = u ++ ["--master", "local[*]"] ++ v)
      ∧ (∃ u v, rc.parameters =
          u ++ ["--master", "spark://" ++ ma.nominal ++ ":" ++ SPARK_MASTER_PORT] ++ v) := by
  refine ⟨_, rfl, ?_, ?_⟩
  · exact ⟨_memory_parameters (some m) none ++ _master_parameters ma.nominal,
      adam_tuning_params ++ ["--"] ++ args, by simp [List.append_assoc]⟩
  · refine ⟨_memory_parameters (some m) none,
      ["--conf", "spark.hadoop.fs.default.name=hdfs://" ++ ma.nominal ++ ":" ++ HDFS_MASTER_PORT] ++
        (["--master", "local[*]"] ++ adam_tuning_params) ++ ["--"] ++ args, ?_⟩
    simp [_master_parameters, h, List.append_assoc]

/-- C9 witness at master "node1", no arguments, memory 1. -/
theorem adam_local_keeps_master_witness :
    ∃ rc, (call_adam (Except.ok ()) (MasterAddress.ofString "node1") [] (some 1) none
      true none).runs = [Run.docker rc]
      ∧ (∃ u v, rc.parameters = u ++ ["--master", "local[*]"] ++ v)
      ∧ (∃ u v, rc.parameters =
          u ++ ["--master", "spark://" ++ (MasterAddress.ofString "node1").nominal ++ ":" ++
            SPARK_MASTER_PORT] ++ v) :=
  adam_local_keeps_master (MasterAddress.ofString "node1") [] 1 (Except.ok ()) (by decide)

end SparkTools

namespace SparkTools

/-- C6: for `call_deca`, `call_mango_browser` and `call_mango_notebook`,
supplying an access key without a secret key fails with the precondition
error before any external run is started (no runs, no logs, error outcome),
while supplying both yields the access-key and secret-key `-e` environment
options on the container's docker parameter list and the matching `--conf`
key/value entries for both keys in the assembled parameter list. -/
theorem aws_credentials_contract (ma : MasterAddress) (args : List String) (m : Nat)
    (ak sk : String) (hak : ak ≠ "") (hsk : sk ≠ "") :
    (call_deca (Except.ok ()) ma args (some m) none none false (some ak) none =
      ⟨[], [], Except.error "If AWS access key is passed, secret key must be defined"⟩)
    ∧ (call_mango_browser (Except.ok ()) ma args "127.0.0.1" 8080 (some m) none none
        false false (some ak) none =
      ⟨[], [], Except.error "If AWS access key is passed, secret key must be defined"⟩)
    ∧ (call_mango_notebook (Except.ok ()) ma args "127.0.0.1" 8888 (some m) none none
        false false (some ak) none =
      ⟨[], [], Except.error "If AWS access key is passed, secret key must be defined"⟩)
    ∧ (∃ dps ps, (call_deca (Except.ok ()) ma args (some m) none none false
        (some ak) (some sk)).runs =
        [Run.docker ⟨"quay.io/ucsc_cgl/deca:0.1.0--7d13833a1220001481c4de0489e893c93ee3310f",
          dps, ps⟩]
      ∧ (∃ u v, dps = u ++ List.map DockerArg.str (aws_env_docker_params ak sk) ++ v)
      ∧ (∃ u v, ps = u ++ aws_key_conf_params ak sk ++ v))
    ∧ (∃ dps ps, (call_mango_browser (Except.ok ()) ma args "127.0.0.1" 8080 (some m) none none
        false false (some ak) (some sk)).runs =
        [Run.docker ⟨"quay.io/ucsc_cgl/mango:latest", dps, ps⟩]
      ∧ (∃ u v, dps = u ++ List.map DockerArg.str (aws_env_docker_params ak sk) ++ v)
      ∧ (∃ u v, ps = u ++ aws_key_conf_params ak sk ++ v))
    ∧ (∃ dps ps, (call_mango_notebook (Except.ok ()) ma args "127.0.0.1" 8888 (some m) none none
        false false (some ak) (some sk)).runs =
        [Run.docker ⟨"quay.io/ucsc_cgl/mango:latest", dps, ps⟩]
      ∧ (∃ u v, dps = u ++ List.map DockerArg.str (aws_env_docker_params ak sk) ++ v)
      ∧ (∃ u v, ps = u ++ aws_key_conf_params ak sk ++ v)) := by
  have hdeca : (call_deca (Except.ok ()) ma args (some m) none none false
      (some ak) (some sk)).runs =
      [Run.docker ⟨"quay.io/ucsc_cgl/deca:0.1.0--7d13833a1220001481c4de0489e893c93ee3310f",
        List.map DockerArg.str (["--log-driver", "none", "--net=host"] ++
          aws_env_docker_params ak sk),
        _memory_parameters (some m) none ++ _master_parameters ma.nominal ++
          (spark_s3_default_params false ++
            ["--packages", "com.amazonaws:aws-java-sdk-pom:1.10.34,org.apache.hadoop:hadoop-aws:2.7.4",
             "--conf", "spark.hadoop.fs.s3a.impl=org.apache.hadoop.fs.s3a.S3AFileSystem"] ++
            aws_scheme_conf_params ak sk ++ aws_key_conf_params ak sk) ++ ["--"] ++ args⟩] := by
    simp [call_deca, truthy, hak, hsk, _make_parameters]
  have hbrow : (call_mango_browser (Except.ok ()) ma args "127.0.0.1" 8080 (some m) none none
      false false (some ak) (some sk)).runs =
      [Run.docker ⟨"quay.io/ucsc_cgl/mango:latest",
        List.map DockerArg.str (["--net=host"] ++ aws_env_docker_params ak sk),
        _memory_parameters (some m) none ++ _master_parameters ma.nominal ++
          (spark_s3_default_params false ++
            ["--conf", "spark.hadoop.fs.s3a.impl=org.apache.hadoop.fs.s3a.S3AFileSystem"] ++
            aws_scheme_conf_params ak sk ++ aws_key_conf_params ak sk) ++ ["--"] ++ args⟩] := by
    simp [call_mango_browser, truthy, hak, hsk, _make_parameters]
  have hnote : (call_mango_notebook (Except.ok ()) ma args "127.0.0.1" 8888 (some m) none none
      false false (some ak) (some sk)).runs =
      [Run.docker ⟨"quay.io/ucsc_cgl/mango:latest",
        List.map DockerArg.str ((["--net=host"] ++ ["--entrypoint=/home/mango/bin/mango-notebook"]) ++
          aws_env_docker_params ak sk),
        _memory_parameters (some m) none ++ _master_parameters ma.nominal ++
          (spark_s3_default_params false ++
            ["--conf", "spark.hadoop.fs.s3a.impl=org.apache.hadoop.fs.s3a.S3AFileSystem"] ++
            aws_scheme_conf_params ak sk ++ aws_key_conf_params ak sk) ++ ["--"] ++ args⟩] := by
    simp [call_mango_notebook, truthy, hak, hsk, _make_parameters]
  refine ⟨?_, ?_, ?_, ?_, ?_, ?_⟩
  · simp [call_deca, truthy, hak]
  · simp [call_mango_browser, truthy, hak]
  · simp [call_mango_notebook, truthy, hak]
  · exact ⟨_, _, hdeca,
      ⟨List.map DockerArg.str ["--log-driver", "none", "--net=host"], [], by simp⟩,
      ⟨_memory_parameters (some m) none ++ _master_parameters ma.nominal ++
        (spark_s3_default_params false ++
          ["--packages", "com.amazonaws:aws-java-sdk-pom:1.10.34,org.apache.hadoop:hadoop-aws:2.7.4",
           "--conf", "spark.hadoop.fs.s3a.impl=org.apache.hadoop.fs.s3a.S3AFileSystem"] ++
          aws_scheme_conf_params ak sk), ["--"] ++ args, by simp [List.append_assoc]⟩⟩
  · exact ⟨_, _, hbrow,
      ⟨List.map DockerArg.str ["--net=host"], [], by simp⟩,
      ⟨_memory_parameters (some m) none ++ _master_parameters ma.nominal ++
        (spark_s3_default_params false ++
          ["--conf", "spark.hadoop.fs.s3a.impl=org.apache.hadoop.fs.s3a.S3AFileSystem"] ++
          aws_scheme_conf_params ak sk), ["--"] ++ args, by simp [List.append_assoc]⟩⟩
  · exact ⟨_, _, hnote,
      ⟨List.map DockerArg.str (["--net=host"] ++ ["--entrypoint=/home/mango/bin/mango-notebook"]),
        [], by simp⟩,
      ⟨_memory_parameters (some m) none ++ _master_parameters ma.nominal ++
        (spark_s3_default_params false ++
          ["--conf", "spark.hadoop.fs.s3a.impl=org.apache.hadoop.fs.s3a.S3AFileSystem"] ++
          aws_scheme_conf_params ak sk), ["--"] ++ args, by simp [List.append_assoc]⟩⟩

/-- C6 witness at empty master, no arguments, memory 1, keys "AK"/"SK". -/
theorem aws_credentials_contract_witness :
    (call_deca (Except.ok ()) (MasterAddress.ofString "") [] (some 1) none none false
      (some "AK") none =
      ⟨[], [], Except.error "If AWS access key is passed, secret key must be defined"⟩)
    ∧ (call_mango_browser (Except.ok ()) (MasterAddress.ofString "") [] "127.0.0.1" 8080 (some 1)
        none none false false (some "AK") none =
      ⟨[], [], Except.error "If AWS access key is passed, secret key must be defined"⟩)
    ∧ (call_mango_notebook (Except.ok ()) (MasterAddress.ofString "") [] "127.0.0.1" 8888 (some 1)
        none none false false (some "AK") none =
      ⟨[], [], Except.error "If AWS access key is passed, secret key must be defined"⟩)
    ∧ (∃ dps ps, (call_deca (Except.ok ()) (MasterAddress.ofString "") [] (some 1) none none false
        (some "AK") (some "SK")).runs =
        [Run.docker ⟨"quay.io/ucsc_cgl/deca:0.1.0--7d13833a1220001481c4de0489e893c93ee3310f",
          dps, ps⟩]
      ∧ (∃ u v, dps = u ++ List.map DockerArg.str (aws_env_docker_params "AK" "SK") ++ v)
      ∧ (∃ u v, ps = u ++ aws_key_conf_params "AK" "SK" ++ v))
    ∧ (∃ dps ps, (call_mango_browser (Except.ok ()) (MasterAddress.ofString "") [] "127.0.0.1" 8080
        (some 1) none none false false (some "AK") (some "SK")).runs =
        [Run.docker ⟨"quay.io/ucsc_cgl/mango:latest", dps, ps⟩]
      ∧ (∃ u v, dps = u ++ List.map DockerArg.str (aws_env_docker_params "AK" "SK") ++ v)
      ∧ (∃ u v, ps = u ++ aws_key_conf_params "AK" "SK" ++ v))
    ∧ (∃ dps ps, (call_mango_notebook (Except.ok ()) (MasterAddress.ofString "") [] "127.0.0.1" 8888
        (some 1) none none false false (some "AK") (some "SK")).runs =
        [Run.docker ⟨"quay.io/ucsc_cgl/mango:latest", dps, ps⟩]
      ∧ (∃ u v, dps = u ++ List.map DockerArg.str (aws_env_docker_params "AK" "SK") ++ v)
      ∧ (∃ u v, ps = u ++ aws_key_conf_params "AK" "SK" ++ v)) :=
  aws_credentials_contract (MasterAddress.ofString "") [] 1 "AK" "SK"
    (by decide) (by decide)

end SparkTools
